import Mathlib

/-!
Verification development for the SolanaMcpService repository.

Shallow embedding of the connection-resilience and request-routing layer:
the Connection Manager (src/solana-api.js SolanaAPI, src/solana.js
initialize), the dispatch front-ends (src/routes.js, src/mcp-server-new.js,
the mcp processRequest handlers), the pump.fun token flow (src/pumpfun.js)
and the keypair utility (getOrCreateKeypair).

External collaborators (the @solana/web3.js SDK, the remote RPC service,
bs58 decoding) are modelled as oracle parameters: a probe function for the
liveness call, Except-valued functions for remote RPC calls, and a
derivation function for Keypair.fromSecretKey.  Machine-level details that
no claim touches (floating point display values such as lamports divided by
LAMPORTS_PER_SOL, ISO date formatting) are represented symbolically by the
exact integer they are computed from.
-/

namespace SolanaMcp

/-- JSON-ish values appearing in result objects.  `solDisplay n` stands for
the floating point display value `n / LAMPORTS_PER_SOL` (determined by the
lamport count `n`); `balanceObj a n` stands for the nested balance object
`{address: a, balanceInLamports: n, balanceInSol: n / LAMPORTS_PER_SOL}`
produced by getBalance and embedded by the mcp getAccountInfo handler. -/
inductive JVal where
  | str (s : String)
  | num (n : Int)
  | bool (b : Bool)
  | null
  | solDisplay (lamports : Int)
  | balanceObj (address : String) (lamports : Int)
  deriving DecidableEq, Repr

/-- A JSON object: ordered key/value pairs. -/
abbrev JObj := List (String × JVal)

/-- Mutable fields of the SolanaAPI singleton that the connection routines
touch (src/solana-api.js lines 9-21): the active connection handle
(represented by the endpoint URL it was constructed from), the connected
flag, and the last health check timestamp in milliseconds. -/
structure ConnState where
  connection : Option String
  connected : Bool
  lastConnectionCheck : Nat
  deriving DecidableEq, Repr

/-- Loop body of SolanaAPI.initConnection (src/solana-api.js lines 34-48).
For each endpoint, the code first assigns `this.connection = new
Connection(endpoint, commitment)` (the constructor performs no network
access and succeeds for the well-formed URLs of the configured pools; a
failure would only surface at the first RPC call, i.e. the probe) and then
awaits `this.connection.getSlot()`.  A successful probe sets connected and
lastConnectionCheck and breaks.  The second component of the result is the
ordered list of endpoints that were attempted. -/
def initConnectionGo (probe : String → Bool) (now : Nat) :
    List String → ConnState → List String → ConnState × List String
  | [], s, tried => (s, tried)
  | e :: rest, s, tried =>
    let s1 : ConnState := { s with connection := some e }
    if probe e then
      ({ s1 with connected := true, lastConnectionCheck := now }, tried ++ [e])
    else
      initConnectionGo probe now rest s1 (tried ++ [e])

/-- SolanaAPI.initConnection (src/solana-api.js lines 23-53), given the
endpoint list it resolved from the config.  It never throws: when every
probe fails it only logs and leaves the connected flag as it was. -/
def initConnection (probe : String → Bool) (now : Nat) (endpoints : List String)
    (s : ConnState) : ConnState × List String :=
  initConnectionGo probe now endpoints s []

/-- State of the synchronous connection loop of `initialize` in
src/solana.js (lines 54-83): the connection variable, the `connected` flag
as the loop reads it, and the endpoints whose probe was launched. -/
structure JsInitState where
  connection : Option String
  connectedDuringLoop : Bool
  probesLaunched : List String
  deriving DecidableEq, Repr

/-- The for-loop of `initialize` in src/solana.js (lines 59-79).  The code
calls `connection.getSlot().then(...).catch(...)` WITHOUT awaiting it, so
under run-to-completion semantics the `.then` continuation that would set
`connected = true` cannot run before the synchronous loop finishes: the
`if (connected) break` guard always reads false, every endpoint is
constructed and assigned to `connection`, and every probe is launched. -/
def jsInitLoop : List String → JsInitState → JsInitState
  | [], st => st
  | e :: rest, st =>
    if st.connectedDuringLoop then st
    else
      jsInitLoop rest
        { st with connection := some e, probesLaunched := st.probesLaunched ++ [e] }

/-- Observable outcome of `initialize` in src/solana.js: the connection the
returned API closes over, and the eventual value of the internal
`connected` flag (set to true by the `.then` of any launched probe that
succeeds, after the loop has completed). -/
def jsInitialize (probe : String → Bool) (endpoints : List String) :
    Option String × Bool :=
  let st := jsInitLoop endpoints ⟨none, false, []⟩
  (st.connection, st.probesLaunched.any probe)

/-- SolanaAPI.checkConnectionHealth (src/solana-api.js lines 55-71).
Returns early, touching nothing, when the last check is less than 10000 ms
old.  Otherwise it probes the active connection (a null connection makes
`this.connection.getSlot()` raise synchronously, which the catch block also
handles): success sets connected, failure clears connected and re-runs
initConnection; in both branches lastConnectionCheck is set to now. -/
def checkConnectionHealth (probe : String → Bool) (now : Nat)
    (endpoints : List String) (s : ConnState) : ConnState :=
  if now - s.lastConnectionCheck < 10000 then s
  else
    let probeOk : Bool :=
      match s.connection with
      | some e => probe e
      | none => false
    if probeOk then
      { s with connected := true, lastConnectionCheck := now }
    else
      let s2 := (initConnection probe now endpoints { s with connected := false }).1
      { s2 with lastConnectionCheck := now }

/-- SolanaAPI.getBalance (src/solana-api.js lines 161-175).  The oracle
`parsePubkey` models the `new PublicKey(address)` constructor (ok, or the
SDK error message); `balanceOf endpoint address` models
`connection.getBalance(pubkey)` against the given endpoint.  Every failure
is re-thrown as `Failed to get balance: ` followed by the underlying
message; a null connection makes the property access on null raise inside
the same try block. -/
def saGetBalance (parsePubkey : String → Except String Unit)
    (balanceOf : String → String → Except String Int)
    (s : ConnState) (address : String) : Except String JObj :=
  match parsePubkey address with
  | .error m => .error ("Failed to get balance: " ++ m)
  | .ok _ =>
    match s.connection with
    | none => .error ("Failed to get balance: Cannot read properties of null")
    | some e =>
      match balanceOf e address with
      | .error m => .error ("Failed to get balance: " ++ m)
      | .ok lam =>
        .ok [("address", .str address), ("balanceInLamports", .num lam),
             ("balanceInSol", .solDisplay lam)]

/-- Network events a transfer flow can emit, in order: the
getLatestBlockhash fetch, the transaction submission (recording which
address the submitted transaction spends from), and the confirmation
wait. -/
inductive NetEvent where
  | fetchBlockhash
  | submitTx (sender : String)
  | confirm
  deriving DecidableEq, Repr

/-- SolanaAPI.transferSol (src/solana-api.js lines 230-285).  `derivePub`
models `Keypair.fromSecretKey(bs58.decode(privateKey)).publicKey.toString()`
(or the decode/fromSecretKey error).  The mismatch guard fires after key
derivation but BEFORE the getLatestBlockhash fetch and the submission; the
second component is the trace of network events that were attempted. -/
def saTransferSol (parsePubkey : String → Except String Unit)
    (derivePub : String → Except String String)
    (latestBlockhash : Except String String)
    (sendRaw : String → Except String String)
    (confirmTx : String → Except String Unit)
    (fromAddress toAddress : String) (amount : Int) (privateKey : String) :
    Except String JObj × List NetEvent :=
  match parsePubkey fromAddress with
  | .error m => (.error ("Failed to transfer SOL: " ++ m), [])
  | .ok _ =>
  match parsePubkey toAddress with
  | .error m => (.error ("Failed to transfer SOL: " ++ m), [])
  | .ok _ =>
  match derivePub privateKey with
  | .error m => (.error ("Failed to transfer SOL: " ++ m), [])
  | .ok derived =>
  if derived = fromAddress then
    match latestBlockhash with
    | .error m => (.error ("Failed to transfer SOL: " ++ m), [.fetchBlockhash])
    | .ok _bh =>
    match sendRaw fromAddress with
    | .error m =>
        (.error ("Failed to transfer SOL: " ++ m), [.fetchBlockhash, .submitTx fromAddress])
    | .ok sig =>
    match confirmTx sig with
    | .error m =>
        (.error ("Failed to transfer SOL: " ++ m),
         [.fetchBlockhash, .submitTx fromAddress, .confirm])
    | .ok _ =>
        (.ok [("success", .bool true), ("signature", .str sig),
              ("from", .str fromAddress), ("to", .str toAddress),
              ("amount", .num amount), ("lamports", .num (amount * 1000000000))],
         [.fetchBlockhash, .submitTx fromAddress, .confirm])
  else
    (.error "Failed to transfer SOL: Private key does not match sender address", [])

/-- JavaScript truthiness of an optional string parameter: present and
non-empty. -/
def jsPresent : Option String → Bool
  | some s => s ≠ ""
  | none => false

/-- The `case transferSol` branch of processRequest in the mcp module
(cited as src/solana.js lines 323-357).  After the presence check on
from/to/amount/privateKey it builds the keypair from the private key and
uses ITS public key as the sender; the supplied `from` parameter is never
compared against the derived address and is not used in the transaction.
`sendTx` models `connection.sendTransaction(transaction, [fromKeypair])`
for a transaction spending from the given sender address; errors inside
the inner try are re-thrown as `Transfer failed: ` plus the message. -/
def mcpTransferSol (derivePub : String → Except String String)
    (parsePubkey : String → Except String Unit)
    (sendTx : String → Except String String)
    (confirmTx : String → Except String Unit)
    (fromP toP amountP privateKeyP : Option String) :
    Except String JObj × List NetEvent :=
  if jsPresent fromP ∧ jsPresent toP ∧ jsPresent amountP ∧ jsPresent privateKeyP then
    let amount := amountP.getD ""
    let toA := toP.getD ""
    match derivePub (privateKeyP.getD "") with
    | .error m => (.error ("Transfer failed: " ++ m), [])
    | .ok derived =>
    match parsePubkey toA with
    | .error m => (.error ("Transfer failed: " ++ m), [])
    | .ok _ =>
    match sendTx derived with
    | .error m => (.error ("Transfer failed: " ++ m), [.submitTx derived])
    | .ok sig =>
    match confirmTx sig with
    | .error m => (.error ("Transfer failed: " ++ m), [.submitTx derived, .confirm])
    | .ok _ =>
        (.ok [("action", .str "transferSol"), ("success", .bool true),
              ("signature", .str sig),
              ("message", .str ("Transferred " ++ amount ++ " SOL from "
                  ++ derived ++ " to " ++ toA))],
         [.submitTx derived, .confirm])
  else
    (.error "Missing required parameters for transfer", [])

/-- Account data returned by the RPC for an existing account (the fields
the handlers read off `connection.getAccountInfo`). -/
structure AccountData where
  owner : String
  lamports : Int
  executable : Bool
  rentEpoch : Nat
  dataSize : Nat
  deriving DecidableEq, Repr

/-- SolanaAPI.getAccountInfo (src/solana-api.js lines 180-203).  `remote`
models `connection.getAccountInfo`: a transport error, or the account
lookup result (`none` when the account does not exist on the ledger).  For
an absent account the returned object is exactly
`{exists: false, address}`. -/
def saGetAccountInfo (parsePubkey : String → Except String Unit)
    (remote : String → Except String (Option AccountData))
    (address : String) : Except String JObj :=
  match parsePubkey address with
  | .error m => .error ("Failed to get account info: " ++ m)
  | .ok _ =>
    match remote address with
    | .error m => .error ("Failed to get account info: " ++ m)
    | .ok none => .ok [("exists", .bool false), ("address", .str address)]
    | .ok (some a) =>
        .ok [("exists", .bool true), ("address", .str address),
             ("owner", .str a.owner), ("lamports", .num a.lamports),
             ("sol", .solDisplay a.lamports), ("executable", .bool a.executable),
             ("rentEpoch", .num a.rentEpoch), ("dataSize", .num a.dataSize)]

/-- getAccountInfo inside `initialize` of src/solana.js (lines 162-185);
textually the same logic as SolanaAPI.getAccountInfo, embedded separately
because the HTTP routes are wired to this copy. -/
def jsGetAccountInfo (parsePubkey : String → Except String Unit)
    (remote : String → Except String (Option AccountData))
    (address : String) : Except String JObj :=
  match parsePubkey address with
  | .error m => .error ("Failed to get account info: " ++ m)
  | .ok _ =>
    match remote address with
    | .error m => .error ("Failed to get account info: " ++ m)
    | .ok none => .ok [("exists", .bool false), ("address", .str address)]
    | .ok (some a) =>
        .ok [("exists", .bool true), ("address", .str address),
             ("owner", .str a.owner), ("lamports", .num a.lamports),
             ("sol", .solDisplay a.lamports), ("executable", .bool a.executable),
             ("rentEpoch", .num a.rentEpoch), ("dataSize", .num a.dataSize)]

/-- Write a key into a JSON object the way JavaScript object spread does:
an existing key keeps its position and gets the new value, a new key is
appended. -/
def jObjSet (o : JObj) (k : String) (v : JVal) : JObj :=
  if (o.find? (fun p => p.1 = k)).isSome then
    o.map (fun p => if p.1 = k then (k, v) else p)
  else
    o ++ [(k, v)]

/-- JavaScript object spread `{...base, ...ext}` on ordered key/value
lists. -/
def jsSpread (base ext : JObj) : JObj :=
  ext.foldl (fun acc p => jObjSet acc p.1 p.2) base

/-- HTTP response shapes the Express routes produce. -/
inductive HttpResp where
  | ok (body : JObj)
  | badRequest (error : String)
  | serverError (error : String)
  deriving DecidableEq, Repr

/-- The `GET /api/account/:address` route (src/routes.js lines 118-135):
validate the address with `new PublicKey`, call getAccountInfo, and respond
with `res.json({ address, ...accountInfo })`. -/
def routeAccountInfo (parsePubkey : String → Except String Unit)
    (remote : String → Except String (Option AccountData))
    (address : String) : HttpResp :=
  match parsePubkey address with
  | .error _ => .badRequest "Invalid Solana address"
  | .ok _ =>
    match jsGetAccountInfo parsePubkey remote address with
    | .error m => .serverError m
    | .ok obj => .ok (jsSpread [("address", .str address)] obj)

/-- The `case getAccountInfo` branch of processRequest in the mcp module
(src/solana.js lines 359-381).  It fetches the raw account info, then the
balance (through getBalance, whose wrapped error `bal` may carry), and
returns an object that also populates action, balance and, for an absent
account, null-valued executable/owner/rentEpoch/dataSize fields. -/
def mcpGetAccountInfo (parsePubkey : String → Except String Unit)
    (remote : String → Except String (Option AccountData))
    (bal : String → Except String Int)
    (address : String) : Except String JObj :=
  match parsePubkey address with
  | .error m => .error ("Failed to get account info: " ++ m)
  | .ok _ =>
    match remote address with
    | .error m => .error ("Failed to get account info: " ++ m)
    | .ok info =>
      match bal address with
      | .error m => .error ("Failed to get account info: " ++ m)
      | .ok lam =>
        .ok [("action", .str "getAccountInfo"), ("address", .str address),
             ("balance", .balanceObj address lam),
             ("exists", .bool info.isSome),
             ("executable", match info with | some a => .bool a.executable | none => .null),
             ("owner", match info with | some a => .str a.owner | none => .null),
             ("rentEpoch", match info with | some a => .num a.rentEpoch | none => .null),
             ("dataSize", match info with | some a => .num a.dataSize | none => .null)]

/-- Oracle for the five sub-queries getNetworkStatus issues: getVersion,
getSlot, getBlockTime(slot), getHealth, getSupply (total and circulating
lamports). -/
structure NetRemote where
  version : Except String String
  slot : Except String Nat
  blockTimeOf : Nat → Except String Nat
  health : Except String String
  supply : Except String (Int × Int)

/-- A NetRemote on which every sub-query fails. -/
def NetRemote.allFail (m1 m2 m3 m4 m5 : String) : NetRemote :=
  ⟨.error m1, .error m2, fun _ => .error m3, .error m4, .error m5⟩

/-- The network the SolanaAPI constructor stores: the source comment reads
`Force mainnet-beta network regardless of environment variable`
(src/solana-api.js line 12). -/
def solanaAPINetwork : String := "mainnet-beta"

/-- Status object SolanaAPI.getNetworkStatus returns on the connected path.
`blockTime` keeps the raw epoch value the ISO string is rendered from;
`totalSupply`/`circulatingSupply` keep the lamport figures the display
division starts from. -/
structure NetworkStatus where
  network : String
  connected : Bool
  version : Option String
  currentSlot : Option Nat
  blockTime : Option Nat
  health : String
  totalSupply : Int
  circulatingSupply : Int
  deriving DecidableEq, Repr

/-- Result of SolanaAPI.getNetworkStatus: either the degraded
`{network, connected: false, error}` object, or the full status object.
The function never throws. -/
inductive NetStatusResult where
  | degraded (network : String) (error : String)
  | ok (st : NetworkStatus)
  deriving DecidableEq, Repr

/-- SolanaAPI.getNetworkStatus (src/solana-api.js lines 76-156).  When not
connected it re-runs initConnection and, still disconnected, returns the
degraded object.  Otherwise each sub-query sits in its own try block:
version/slot/blockTime default to null, health to `unknown`, the supply
figures to 0; a falsy (zero) slot skips the blockTime fetch. -/
def saGetNetworkStatus (probe : String → Bool) (now : Nat)
    (endpoints : List String) (remote : NetRemote) (s : ConnState) :
    NetStatusResult × ConnState :=
  let s1 := if s.connected then s else (initConnection probe now endpoints s).1
  if s1.connected then
    let version : Option String :=
      match remote.version with | .ok v => some v | .error _ => none
    let slot : Option Nat :=
      match remote.slot with | .ok n => some n | .error _ => none
    let blockTime : Option Nat :=
      match slot with
      | some n =>
        if n ≠ 0 then
          match remote.blockTimeOf n with | .ok t => some t | .error _ => none
        else none
      | none => none
    let health : String :=
      match remote.health with | .ok h => h | .error _ => "unknown"
    let supplyPair : Int × Int :=
      match remote.supply with | .ok p => p | .error _ => (0, 0)
    (.ok ⟨solanaAPINetwork, s1.connected, version, slot, blockTime, health,
          supplyPair.1, supplyPair.2⟩, s1)
  else
    (.degraded solanaAPINetwork "Failed to connect to Solana network", s1)

/-- getNetworkStatus inside `initialize` of src/solana.js (lines 89-108).
The four awaits run sequentially with NO per-field try blocks: the first
failing sub-query aborts the whole call, re-thrown as
`Failed to get network status: ` plus the message. -/
def jsGetNetworkStatus (remote : NetRemote) :
    Except String (String × Nat × Nat × Int × Int) :=
  match remote.version with
  | .error m => .error ("Failed to get network status: " ++ m)
  | .ok v =>
  match remote.slot with
  | .error m => .error ("Failed to get network status: " ++ m)
  | .ok n =>
  match remote.blockTimeOf n with
  | .error m => .error ("Failed to get network status: " ++ m)
  | .ok t =>
  match remote.supply with
  | .error m => .error ("Failed to get network status: " ++ m)
  | .ok p => .ok (v, n, t, p.1, p.2)

/-- The environment variables the configuration reads (none means the
variable is unset). -/
structure Env where
  solanaNetwork : Option String
  mainnetRpcUrl : Option String
  devnetRpcUrl : Option String
  testnetRpcUrl : Option String
  deriving DecidableEq, Repr

/-- JavaScript `a || b` on an optional environment string: an unset or
empty variable is falsy. -/
def jsOrStr (a : Option String) (b : String) : String :=
  match a with
  | some s => if s = "" then b else s
  | none => b

/-- config.solana.network (src/config.js line 20):
`process.env.SOLANA_NETWORK || 'devnet'`. -/
def configNetwork (env : Env) : String :=
  jsOrStr env.solanaNetwork "devnet"

/-- config.solana.endpoints (src/config.js lines 21-37): the per-network
endpoint pools, with env-var overrides for the first entry of each pool.
Unknown network names have no pool. -/
def configEndpoints (env : Env) (network : String) : Option (List String) :=
  if network = "mainnet-beta" then
    some [jsOrStr env.mainnetRpcUrl "https://api.mainnet-beta.solana.com",
          "https://solana-api.projectserum.com",
          "https://rpc.ankr.com/solana"]
  else if network = "devnet" then
    some [jsOrStr env.devnetRpcUrl "https://api.devnet.solana.com",
          "https://devnet.genesysgo.net"]
  else if network = "testnet" then
    some [jsOrStr env.testnetRpcUrl "https://api.testnet.solana.com"]
  else if network = "localnet" then
    some ["http://localhost:8899"]
  else
    none

/-- Endpoint pool SolanaAPI.initConnection resolves (src/solana-api.js
line 25): `config.solana.endpoints[this.network] ||
config.solana.endpoints['devnet']`, with `this.network` the hardcoded
solanaAPINetwork. -/
def solanaAPIEndpoints (env : Env) : List String :=
  ((configEndpoints env solanaAPINetwork).orElse
    (fun _ => configEndpoints env "devnet")).getD []

/-- Network selection of `initialize` in src/solana.js (lines 28-30):
`networkName = process.env.SOLANA_NETWORK || 'devnet'` and then
`network = networkName || 'devnet'`. -/
def jsInitializeNetwork (env : Env) : String :=
  jsOrStr (some (jsOrStr env.solanaNetwork "devnet")) "devnet"

/-- JavaScript `v || d` on an already-parsed numeric parameter: `none`
stands for NaN or an absent value, and 0 is falsy, so both fall back to the
default. -/
def jsOrNum (v : Option Int) (d : Int) : Int :=
  match v with
  | none => d
  | some n => if n = 0 then d else n

/-- Limit handling of `GET /api/transactions/:address` (src/routes.js line
56): `parseInt(req.query.limit) || 10`, with no upper bound; the resulting
value is handed straight to the getTransactions handler. -/
def httpTransactionsLimit (parsed : Option Int) : Int :=
  jsOrNum parsed 10

/-- Limit handling of the `case getTransactions` branch of processRequest,
reached from the WebSocket front-end and `POST /api/mcp/execute`
(src/solana.js line 312): `parameters.limit || 10`, with no upper bound. -/
def wsTransactionsLimit (limitParam : Option Int) : Int :=
  jsOrNum limitParam 10

/-- Limit handling of the stdio getTransactions tool
(src/mcp-server-new.js line 92): the zod schema
`z.number().int().positive().max(100).optional().default(10)` — an absent
limit defaults to 10, a present one is accepted exactly when it is a
positive integer at most 100, and is rejected as a validation error
otherwise, before the handler runs. -/
def mcpToolTransactionsLimit (limitParam : Option Int) : Except Unit Int :=
  match limitParam with
  | none => .ok 10
  | some n => if 0 < n ∧ n ≤ 100 then .ok n else .error ()

/-- A generated keypair as the utility sees it: the base58 public key and
the raw secret key bytes. -/
structure KeypairV where
  publicKey : String
  secretKey : List Nat
  deriving DecidableEq, Repr

/-- The persistent file system as path/contents pairs. -/
abbrev FileSys := List (String × String)

/-- Contents of a file, if present. -/
def lookupFile (fs : FileSys) (p : String) : Option String :=
  (fs.find? (fun q => q.1 = p)).map (fun q => q.2)

/-- `JSON.stringify(Array.from(keypair.secretKey))`: the secret key bytes
rendered as a JSON array. -/
def jsonStringifyNats (l : List Nat) : String :=
  "[" ++ String.intercalate "," (l.map toString) ++ "]"

/-- getOrCreateKeypair (src/unnamed/part_000 lines 8-28).  `parseKp` models
`Keypair.fromSecretKey(new Uint8Array(JSON.parse(contents)))` for an
existing file; `gen` is the keypair `Keypair.generate()` would produce.
When the file `keysFolder/name.json` does not exist the function generates
a keypair and writes its full secret key to that file with
`fs.writeFileSync`. -/
def getOrCreateKeypair (parseKp : String → KeypairV) (gen : KeypairV)
    (fs : FileSys) (keysFolder name : String) : KeypairV × FileSys :=
  let keypairFile := keysFolder ++ "/" ++ name ++ ".json"
  match lookupFile fs keypairFile with
  | some contents => (parseKp contents, fs)
  | none => (gen, fs ++ [(keypairFile, jsonStringifyNats gen.secretKey)])

/-- The hardcoded fallback key in createPumpFunToken (src/pumpfun.js line
232, comment `Direct hardcoded key - ONLY FOR TESTING`). -/
def hardcodedKey : String := "your private key"

/-- JavaScript `a || b` on strings: the empty string is falsy. -/
def jsOrS (a b : String) : String :=
  if a = "" then b else a

/-- The private key selection of createPumpFunToken (src/pumpfun.js line
233): `params.privateKey || process.env.PUMPFUN_PRIVATE_KEY ||
hardcodedKey`. -/
def pumpfunPrivateKey (paramsKey envKey : Option String) : String :=
  jsOrS (paramsKey.getD "") (jsOrS (envKey.getD "") hardcodedKey)

/-- The validation prologue of createPumpFunToken (src/pumpfun.js lines
226-238): the name/symbol presence check, then the private key selection,
then the `if (!privateKey) throw` guard.  On success it proceeds into
createToken with the selected key. -/
def createPumpFunTokenPrologue (name symbol : String)
    (paramsKey envKey : Option String) : Except String String :=
  if name = "" ∨ symbol = "" then
    .error "Missing required parameters: name and symbol must be provided"
  else
    let privateKey := pumpfunPrivateKey paramsKey envKey
    if privateKey = "" then
      .error "No private key provided and PUMPFUN_PRIVATE_KEY not found in environment"
    else
      .ok privateKey

/-- Helper: when every probe fails, the initConnection loop never enters
its success branch, so the connected flag is left exactly as it was. -/
theorem initConnectionGo_allFail (probe : String → Bool) (now : Nat)
    (eps : List String) :
    ∀ (s : ConnState) (tried : List String),
      (∀ x ∈ eps, probe x = false) →
      (initConnectionGo probe now eps s tried).1.connected = s.connected := by
  induction eps with
  | nil => intro s tried _; rfl
  | cons e rest ih =>
    intro s tried h
    have he : probe e = false := h e (List.mem_cons_self e rest)
    simp only [initConnectionGo, he, Bool.false_eq_true, if_false]
    exact ih _ _ (fun x hx => h x (List.mem_cons_of_mem _ hx))

/-- C1: the claim states that every connect routine tries the pool in
order and stops at the first endpoint whose probe succeeds.  This holds
for SolanaAPI.initConnection (first conjunct: the pool [bad1, bad2, good]
yields the third endpoint after exactly the three attempts, in order), but
`initialize` in src/solana.js launches the probe without awaiting it, so
its `if (connected) break` guard never fires: on the pool [good, bad] the
probe of `good` succeeds, yet `bad` is still tried and ends up as the
active connection (second conjunct). -/
theorem C1_first_success_wins_code_bug :
    initConnection (fun e => e == "good") 5 ["bad1", "bad2", "good"]
        ⟨none, false, 0⟩
      = (⟨some "good", true, 5⟩, ["bad1", "bad2", "good"]) ∧
    jsInitialize (fun e => e == "good") ["good", "bad"] = (some "bad", true) ∧
    ("good" == "good") = true := by
  refine ⟨by decide, by decide, by decide⟩

/-- C3: a health check within 10 seconds of the last recorded check
returns the state unchanged and is independent of the probe (first
conjunct); outside the window it probes the active endpoint, and on probe
failure it clears the connected flag and immediately re-runs the
initConnection failover routine (second conjunct). -/
theorem C3_checkHealth_debounce_and_failover (probe probe2 : String → Bool)
    (now : Nat) (endpoints : List String) (s : ConnState) :
    (now - s.lastConnectionCheck < 10000 →
        checkConnectionHealth probe now endpoints s = s ∧
        checkConnectionHealth probe now endpoints s
          = checkConnectionHealth probe2 now endpoints s) ∧
    (¬ now - s.lastConnectionCheck < 10000 →
        ∀ e, s.connection = some e →
          (probe e = true →
              checkConnectionHealth probe now endpoints s
                = { s with connected := true, lastConnectionCheck := now }) ∧
          (probe e = false →
              checkConnectionHealth probe now endpoints s
                = { (initConnection probe now endpoints
                      { s with connected := false }).1
                    with lastConnectionCheck := now })) := by
  constructor
  · intro h
    constructor
    · simp [checkConnectionHealth, h]
    · simp [checkConnectionHealth, h]
  · intro h e he
    constructor
    · intro hp
      simp [checkConnectionHealth, h, he, hp]
    · intro hp
      simp [checkConnectionHealth, h, he, hp]

/-- Witness for C3: concrete instances of both branches.  With the last
check at time 0, a call at 5000 ms changes nothing; a call at 20000 ms
whose probe fails on the active endpoint `a` fails over through the pool
[b] and ends disconnected on `b` with the check time updated. -/
theorem C3_checkHealth_debounce_and_failover_witness :
    checkConnectionHealth (fun _ => false) 5000 ["b"] ⟨some "a", true, 0⟩
      = ⟨some "a", true, 0⟩ ∧
    checkConnectionHealth (fun _ => false) 20000 ["b"] ⟨some "a", true, 0⟩
      = ⟨some "b", false, 20000⟩ := by
  constructor
  · exact ((C3_checkHealth_debounce_and_failover (fun _ => false) (fun _ => false)
      5000 ["b"] ⟨some "a", true, 0⟩).1 (by decide)).1
  · exact (((C3_checkHealth_debounce_and_failover (fun _ => false) (fun _ => false)
      20000 ["b"] ⟨some "a", true, 0⟩).2 (by decide)) "a" rfl).2 rfl

/-- C10: for any input with name and symbol present, the private key
selected by createPumpFunToken is non-empty — the fallback chain ends in
the non-empty hardcoded test key — so the guard that would raise
`No private key provided and PUMPFUN_PRIVATE_KEY not found in environment`
is unreachable and the prologue proceeds with the selected key. -/
theorem C10_no_key_branch_unreachable (name symbol : String)
    (paramsKey envKey : Option String)
    (hn : name ≠ "") (hs : symbol ≠ "") :
    pumpfunPrivateKey paramsKey envKey ≠ "" ∧
    createPumpFunTokenPrologue name symbol paramsKey envKey
      = .ok (pumpfunPrivateKey paramsKey envKey) := by
  have hk : pumpfunPrivateKey paramsKey envKey ≠ "" := by
    unfold pumpfunPrivateKey jsOrS
    split
    · split
      · decide
      · assumption
    · assumption
  refine ⟨hk, ?_⟩
  have hns : ¬ (name = "" ∨ symbol = "") := by
    intro h
    cases h with
    | inl h => exact hn h
    | inr h => exact hs h
  simp only [createPumpFunTokenPrologue, if_neg hns, if_neg hk]

/-- Witness for C10: with name `Tok`, symbol `TOK`, no privateKey
parameter and no environment key, the selected key is non-empty and the
prologue succeeds. -/
theorem C10_no_key_branch_unreachable_witness :
    pumpfunPrivateKey none none ≠ "" ∧
    createPumpFunTokenPrologue "Tok" "TOK" none none
      = .ok (pumpfunPrivateKey none none) :=
  C10_no_key_branch_unreachable "Tok" "TOK" none none (by decide) (by decide)

/-- C2 counterexample: the claim states that in the degraded state a
getBalance call fails with the Unavailable error kind and never surfaces
the transport failure.  After a connect over the pool [bad1, bad2] whose
probes all fail, the connected flag is false, yet getBalance does not
consult it: it issues the remote call on the last-tried endpoint and its
error embeds the raw transport message verbatim — two different transport
failures produce two different errors, so the error is not a uniform
Unavailable kind. -/
theorem C2_degraded_getBalance_counterexample :
    (initConnection (fun _ => false) 0 ["bad1", "bad2"] ⟨none, false, 0⟩).1
      = ⟨some "bad2", false, 0⟩ ∧
    saGetBalance (fun _ => .ok ()) (fun _ _ => .error "transport one")
        ⟨some "bad2", false, 0⟩ "Addr"
      = .error "Failed to get balance: transport one" ∧
    saGetBalance (fun _ => .ok ()) (fun _ _ => .error "transport two")
        ⟨some "bad2", false, 0⟩ "Addr"
      = .error "Failed to get balance: transport two" ∧
    ("Failed to get balance: transport one" : String)
      ≠ "Failed to get balance: transport two" := by
  refine ⟨by decide, rfl, rfl, by decide⟩

/-- C2 as amended: when every probe of the pool fails, initConnection
leaves the connected flag exactly as it was (false, and it does not
throw), and a getBalance call in the resulting degraded state surfaces the
remote failure wrapped as `Failed to get balance: ` plus the raw transport
message — there is no Unavailable error kind in the code. -/
theorem C2_degraded_getBalance_wraps_transport (probe : String → Bool)
    (now : Nat) (endpoints : List String)
    (parsePubkey : String → Except String Unit)
    (balanceOf : String → String → Except String Int)
    (s : ConnState) (e addr m : String)
    (hall : ∀ x ∈ endpoints, probe x = false)
    (hc : s.connected = false)
    (hconn : (initConnection probe now endpoints s).1.connection = some e)
    (hparse : parsePubkey addr = .ok ())
    (hbal : balanceOf e addr = .error m) :
    (initConnection probe now endpoints s).1.connected = false ∧
    saGetBalance parsePubkey balanceOf (initConnection probe now endpoints s).1 addr
      = .error ("Failed to get balance: " ++ m) := by
  have h1 : (initConnection probe now endpoints s).1.connected = false := by
    rw [initConnection, initConnectionGo_allFail probe now endpoints s [] hall, hc]
  refine ⟨h1, ?_⟩
  simp [saGetBalance, hparse, hconn, hbal]

/-- Witness for C2: the pool [bad1, bad2] with all probes failing, a valid
address and a remote call failing with message `boom`. -/
theorem C2_degraded_getBalance_wraps_transport_witness :
    (initConnection (fun _ => false) 0 ["bad1", "bad2"] ⟨none, false, 0⟩).1.connected
      = false ∧
    saGetBalance (fun _ => .ok ()) (fun _ _ => .error "boom")
        (initConnection (fun _ => false) 0 ["bad1", "bad2"] ⟨none, false, 0⟩).1 "Addr"
      = .error ("Failed to get balance: " ++ "boom") :=
  C2_degraded_getBalance_wraps_transport (fun _ => false) 0 ["bad1", "bad2"]
    (fun _ => .ok ()) (fun _ _ => .error "boom") ⟨none, false, 0⟩ "bad2" "Addr" "boom"
    (fun _ _ => rfl) rfl rfl rfl rfl

/-- C4 counterexample: the claim states that a limit above 100 is rejected
before the handler runs on all three front-ends and that all three accept
the same inputs.  At limit 500 the stdio tool schema rejects, but the HTTP
route and the WebSocket dispatcher both hand 500 straight to the handler —
the three entry points do not accept the same set of inputs. -/
theorem C4_limit_entry_points_counterexample :
    mcpToolTransactionsLimit (some 500) = .error () ∧
    httpTransactionsLimit (some 500) = 500 ∧
    wsTransactionsLimit (some 500) = 500 := by
  refine ⟨rfl, by decide, by decide⟩

/-- C4 as amended: an absent limit defaults to 10 on all three front-ends,
and only the stdio tool schema bounds it: a limit above 100 is rejected
there, while the HTTP route and the WebSocket dispatcher pass it through
unchanged to the handler. -/
theorem C4_limit_default_and_stdio_only_bound (n : Int) (hn : 100 < n) :
    httpTransactionsLimit none = 10 ∧
    wsTransactionsLimit none = 10 ∧
    mcpToolTransactionsLimit none = .ok 10 ∧
    mcpToolTransactionsLimit (some n) = .error () ∧
    httpTransactionsLimit (some n) = n ∧
    wsTransactionsLimit (some n) = n := by
  have hne : n ≠ 0 := by omega
  have hgt : ¬ (0 < n ∧ n ≤ 100) := by omega
  refine ⟨rfl, rfl, rfl, ?_, ?_, ?_⟩
  · simp [mcpToolTransactionsLimit, hgt]
  · simp [httpTransactionsLimit, jsOrNum, hne]
  · simp [wsTransactionsLimit, jsOrNum, hne]

/-- Witness for C4: the amended statement at limit 101. -/
theorem C4_limit_default_and_stdio_only_bound_witness :
    httpTransactionsLimit none = 10 ∧
    wsTransactionsLimit none = 10 ∧
    mcpToolTransactionsLimit none = .ok 10 ∧
    mcpToolTransactionsLimit (some 101) = .error () ∧
    httpTransactionsLimit (some 101) = 101 ∧
    wsTransactionsLimit (some 101) = 101 :=
  C4_limit_default_and_stdio_only_bound 101 (by decide)

/-- C5 counterexample: the claim states that on every front-end transfer
path a private key whose derived address differs from fromAddress fails
with KeyMismatch and nothing is submitted.  On the processRequest
transferSol path, with from = AADDR and a key deriving to DADDR, the call
succeeds: the transaction is submitted and confirmed with DADDR as the
sender, the supplied fromAddress never being checked or used. -/
theorem C5_key_mismatch_counterexample :
    mcpTransferSol (fun pk => if pk = "PK" then .ok "DADDR" else .error "bad key")
        (fun _ => .ok ()) (fun d => .ok ("sig-" ++ d)) (fun _ => .ok ())
        (some "AADDR") (some "BADDR") (some "1") (some "PK")
      = (.ok [("action", .str "transferSol"), ("success", .bool true),
              ("signature", .str "sig-DADDR"),
              ("message", .str "Transferred 1 SOL from DADDR to BADDR")],
         [.submitTx "DADDR", .confirm]) ∧
    ("DADDR" : String) ≠ "AADDR" := by
  refine ⟨rfl, by decide⟩

/-- C5 as amended: on the SolanaAPI.transferSol path a key deriving to an
address other than fromAddress aborts with the mismatch error and an empty
network trace — no blockhash fetch, no submission (first conjunct); the
processRequest transferSol path performs no such check: it submits and
confirms a transfer whose sender is the key-derived address, ignoring the
supplied fromAddress (second conjunct). -/
theorem C5_key_mismatch_only_on_direct_paths
    (parsePubkey : String → Except String Unit)
    (derivePub : String → Except String String)
    (latestBlockhash : Except String String)
    (sendRaw sendTx : String → Except String String)
    (confirmTx confirmTx2 : String → Except String Unit)
    (fromA toA amtS pk d sig : String) (amount : Int)
    (hp1 : parsePubkey fromA = .ok ())
    (hp2 : parsePubkey toA = .ok ())
    (hd : derivePub pk = .ok d)
    (hne : d ≠ fromA)
    (hfrom : fromA ≠ "") (hto : toA ≠ "") (hamt : amtS ≠ "") (hpk : pk ≠ "")
    (hsend : sendTx d = .ok sig)
    (hconf : confirmTx2 sig = .ok ()) :
    saTransferSol parsePubkey derivePub latestBlockhash sendRaw confirmTx
        fromA toA amount pk
      = (.error "Failed to transfer SOL: Private key does not match sender address",
         []) ∧
    mcpTransferSol derivePub parsePubkey sendTx confirmTx2
        (some fromA) (some toA) (some amtS) (some pk)
      = (.ok [("action", .str "transferSol"), ("success", .bool true),
              ("signature", .str sig),
              ("message", .str ("Transferred " ++ amtS ++ " SOL from "
                  ++ d ++ " to " ++ toA))],
         [.submitTx d, .confirm]) := by
  constructor
  · simp [saTransferSol, hp1, hp2, hd, hne]
  · simp [mcpTransferSol, jsPresent, hfrom, hto, hamt, hpk, hd, hp2, hsend, hconf]

/-- Witness for C5: concrete oracles where the key PK derives to DADDR,
the claimed sender is AADDR, and submission and confirmation succeed. -/
theorem C5_key_mismatch_only_on_direct_paths_witness :
    saTransferSol (fun _ => .ok ())
        (fun pk => if pk = "PK" then .ok "DADDR" else .error "bad key")
        (.ok "bh") (fun _ => .ok "raw-sig") (fun _ => .ok ())
        "AADDR" "BADDR" 1 "PK"
      = (.error "Failed to transfer SOL: Private key does not match sender address",
         []) ∧
    mcpTransferSol (fun pk => if pk = "PK" then .ok "DADDR" else .error "bad key")
        (fun _ => .ok ()) (fun _ => .ok "ws-sig") (fun _ => .ok ())
        (some "AADDR") (some "BADDR") (some "2") (some "PK")
      = (.ok [("action", .str "transferSol"), ("success", .bool true),
              ("signature", .str "ws-sig"),
              ("message", .str ("Transferred " ++ "2" ++ " SOL from "
                  ++ "DADDR" ++ " to " ++ "BADDR"))],
         [.submitTx "DADDR", .confirm]) :=
  C5_key_mismatch_only_on_direct_paths (fun _ => .ok ())
    (fun pk => if pk = "PK" then .ok "DADDR" else .error "bad key")
    (.ok "bh") (fun _ => .ok "raw-sig") (fun _ => .ok "ws-sig")
    (fun _ => .ok ()) (fun _ => .ok ())
    "AADDR" "BADDR" "2" "PK" "DADDR" "ws-sig" 1
    rfl rfl rfl (by decide) (by decide) (by decide) (by decide) (by decide)
    rfl rfl

/-- C6 counterexample: the claim states that no code path ever writes
private key material to persistent storage.  Starting from an empty file
system, getOrCreateKeypair for a missing keypair file generates a keypair
and writes its full secret key bytes, JSON-serialised, to keys/dev.json. -/
theorem C6_keypair_persisted_counterexample :
    (getOrCreateKeypair (fun _ => ⟨"", []⟩) ⟨"GenPub", [7, 7, 7]⟩ [] "keys" "dev").2
      = [("keys/dev.json", "[7,7,7]")] ∧
    jsonStringifyNats ([7, 7, 7] : List Nat) = "[7,7,7]" := by
  refine ⟨rfl, rfl⟩

/-- C6 as amended: the request-serving handlers return key material
without persisting it, but the getOrCreateKeypair utility does persist
keys: whenever the keypair file is absent it writes the generated secret
key, serialised as a JSON byte array, to keysFolder/name.json on the
server file system. -/
theorem C6_getOrCreateKeypair_writes_secret (parseKp : String → KeypairV)
    (gen : KeypairV) (fs : FileSys) (keysFolder name : String)
    (h : lookupFile fs (keysFolder ++ "/" ++ name ++ ".json") = none) :
    (getOrCreateKeypair parseKp gen fs keysFolder name).1 = gen ∧
    (getOrCreateKeypair parseKp gen fs keysFolder name).2
      = fs ++ [(keysFolder ++ "/" ++ name ++ ".json",
                jsonStringifyNats gen.secretKey)] := by
  constructor
  · simp [getOrCreateKeypair, h]
  · simp [getOrCreateKeypair, h]

/-- Witness for C6: the empty file system, folder keys, name dev. -/
theorem C6_getOrCreateKeypair_writes_secret_witness :
    (getOrCreateKeypair (fun _ => ⟨"", []⟩) ⟨"GenPub", [9, 9]⟩ [] "keys" "dev").1
      = ⟨"GenPub", [9, 9]⟩ ∧
    (getOrCreateKeypair (fun _ => ⟨"", []⟩) ⟨"GenPub", [9, 9]⟩ [] "keys" "dev").2
      = [] ++ [("keys" ++ "/" ++ "dev" ++ ".json", jsonStringifyNats [9, 9])] :=
  C6_getOrCreateKeypair_writes_secret (fun _ => ⟨"", []⟩) ⟨"GenPub", [9, 9]⟩ []
    "keys" "dev" rfl

/-- C7 counterexample: the claim states the Connection Manager connects to
the network selected by SOLANA_NETWORK (default devnet).  With
SOLANA_NETWORK set to devnet, the configuration records devnet, yet
SolanaAPI stores the hardcoded mainnet-beta and resolves the mainnet
endpoint pool, which differs from the devnet pool. -/
theorem C7_network_selection_counterexample :
    configNetwork ⟨some "devnet", none, none, none⟩ = "devnet" ∧
    solanaAPINetwork = "mainnet-beta" ∧
    solanaAPIEndpoints ⟨some "devnet", none, none, none⟩
      = ["https://api.mainnet-beta.solana.com",
         "https://solana-api.projectserum.com",
         "https://rpc.ankr.com/solana"] ∧
    (configEndpoints ⟨some "devnet", none, none, none⟩ "devnet").getD []
      = ["https://api.devnet.solana.com", "https://devnet.genesysgo.net"] ∧
    solanaAPIEndpoints ⟨some "devnet", none, none, none⟩
      ≠ (configEndpoints ⟨some "devnet", none, none, none⟩ "devnet").getD [] := by
  refine ⟨rfl, rfl, rfl, rfl, by decide⟩

/-- C7 as amended: SolanaAPI always connects with the hardcoded
mainnet-beta pool — its endpoint list depends only on the mainnet URL
override, never on SOLANA_NETWORK — while the legacy initialize in
src/solana.js does honour SOLANA_NETWORK with the documented devnet
default. -/
theorem C7_solanaAPI_ignores_network_env (env env2 : Env)
    (h : env.mainnetRpcUrl = env2.mainnetRpcUrl) :
    solanaAPINetwork = "mainnet-beta" ∧
    solanaAPIEndpoints env = solanaAPIEndpoints env2 ∧
    (∀ n, n ≠ "" → jsInitializeNetwork { env with solanaNetwork := some n } = n) ∧
    jsInitializeNetwork { env with solanaNetwork := none } = "devnet" := by
  refine ⟨rfl, ?_, ?_, rfl⟩
  · simp [solanaAPIEndpoints, configEndpoints, solanaAPINetwork, h]
  · intro n hn
    simp [jsInitializeNetwork, jsOrStr, hn]

/-- Witness for C7: two environments selecting devnet and testnet
respectively, with the same (absent) mainnet override. -/
theorem C7_solanaAPI_ignores_network_env_witness :
    solanaAPINetwork = "mainnet-beta" ∧
    solanaAPIEndpoints ⟨some "devnet", none, none, none⟩
      = solanaAPIEndpoints ⟨some "testnet", none, none, none⟩ ∧
    (∀ n, n ≠ "" →
      jsInitializeNetwork { (⟨some "devnet", none, none, none⟩ : Env) with
        solanaNetwork := some n } = n) ∧
    jsInitializeNetwork { (⟨some "devnet", none, none, none⟩ : Env) with
      solanaNetwork := none } = "devnet" :=
  C7_solanaAPI_ignores_network_env ⟨some "devnet", none, none, none⟩
    ⟨some "testnet", none, none, none⟩ rfl

/-- C8 counterexample: the claim states that with a healthy connection a
failing sub-query only nulls its field and never fails the whole
getNetworkStatus call.  The getNetworkStatus of src/solana.js has no
per-field handling: with only getVersion failing (message boom) and every
other sub-query healthy, the whole call fails. -/
theorem C8_whole_call_fails_counterexample :
    jsGetNetworkStatus ⟨.error "boom", .ok 5, fun _ => .ok 17, .ok "ok", .ok (9, 8)⟩
      = .error ("Failed to get network status: " ++ "boom") := by
  rfl

/-- C8 as amended: SolanaAPI.getNetworkStatus is best-effort — with a
healthy connection it always returns a status object (first conjunct), and
when every sub-query fails the object carries null version, slot and block
time, health unknown and zero supply figures (second conjunct); the
getNetworkStatus of src/solana.js instead propagates any sub-query failure
as a failure of the whole call. -/
theorem C8_sa_best_effort (probe : String → Bool) (now : Nat)
    (endpoints : List String) (remote : NetRemote) (s : ConnState)
    (m1 m2 m3 m4 m5 : String) (h : s.connected = true) :
    (∃ st, (saGetNetworkStatus probe now endpoints remote s).1 = .ok st) ∧
    (saGetNetworkStatus probe now endpoints (NetRemote.allFail m1 m2 m3 m4 m5) s).1
      = .ok ⟨solanaAPINetwork, true, none, none, none, "unknown", 0, 0⟩ := by
  constructor
  · unfold saGetNetworkStatus
    simp only [h, if_true]
    exact ⟨_, rfl⟩
  · unfold saGetNetworkStatus
    simp only [h, if_true]
    rfl

/-- Witness for C8: a connected state, a remote with mixed outcomes for
the existence half, and arbitrary failure messages for the all-fail
half. -/
theorem C8_sa_best_effort_witness :
    (∃ st, (saGetNetworkStatus (fun _ => false) 0 []
        ⟨.ok "v1", .error "s", fun _ => .ok 3, .error "h", .ok (5, 4)⟩
        ⟨some "e", true, 0⟩).1 = .ok st) ∧
    (saGetNetworkStatus (fun _ => false) 0 []
        (NetRemote.allFail "a" "b" "c" "d" "e") ⟨some "e", true, 0⟩).1
      = .ok ⟨solanaAPINetwork, true, none, none, none, "unknown", 0, 0⟩ :=
  C8_sa_best_effort (fun _ => false) 0 []
    ⟨.ok "v1", .error "s", fun _ => .ok 3, .error "h", .ok (5, 4)⟩
    ⟨some "e", true, 0⟩ "a" "b" "c" "d" "e" rfl

/-- C9 counterexample: the claim states every front-end path returns
exactly the two-field object for a nonexistent account.  The
processRequest getAccountInfo path, on a nonexistent account, returns an
object whose key set — action, address, balance, exists, and null-valued
executable, owner, rentEpoch, dataSize — is not a permutation of the
claimed two keys. -/
theorem C9_extra_fields_counterexample :
    mcpGetAccountInfo (fun _ => .ok ()) (fun _ => .ok none) (fun _ => .ok 0) "Addr1"
      = .ok [("action", .str "getAccountInfo"), ("address", .str "Addr1"),
             ("balance", .balanceObj "Addr1" 0), ("exists", .bool false),
             ("executable", .null), ("owner", .null), ("rentEpoch", .null),
             ("dataSize", .null)] ∧
    ¬ List.Perm
        (["action", "address", "balance", "exists", "executable", "owner",
          "rentEpoch", "dataSize"] : List String)
        ["exists", "address"] := by
  refine ⟨rfl, by decide⟩

/-- C9 as amended: for a nonexistent account, SolanaAPI.getAccountInfo and
the getAccountInfo of src/solana.js return exactly {exists: false,
address}, and the HTTP account route returns exactly those two fields (in
spread order); the processRequest getAccountInfo path instead also
populates action, balance and null-valued executable, owner, rentEpoch
and dataSize. -/
theorem C9_absent_account_shape (parsePubkey : String → Except String Unit)
    (remote : String → Except String (Option AccountData))
    (bal : String → Except String Int) (addr : String) (lam : Int)
    (hparse : parsePubkey addr = .ok ())
    (hrem : remote addr = .ok none)
    (hbal : bal addr = .ok lam) :
    saGetAccountInfo parsePubkey remote addr
      = .ok [("exists", .bool false), ("address", .str addr)] ∧
    jsGetAccountInfo parsePubkey remote addr
      = .ok [("exists", .bool false), ("address", .str addr)] ∧
    routeAccountInfo parsePubkey remote addr
      = .ok [("address", .str addr), ("exists", .bool false)] ∧
    mcpGetAccountInfo parsePubkey remote bal addr
      = .ok [("action", .str "getAccountInfo"), ("address", .str addr),
             ("balance", .balanceObj addr lam), ("exists", .bool false),
             ("executable", .null), ("owner", .null), ("rentEpoch", .null),
             ("dataSize", .null)] := by
  refine ⟨?_, ?_, ?_, ?_⟩
  · simp [saGetAccountInfo, hparse, hrem]
  · simp [jsGetAccountInfo, hparse, hrem]
  · simp [routeAccountInfo, jsGetAccountInfo, jsSpread, jObjSet, hparse, hrem]
  · simp [mcpGetAccountInfo, hparse, hrem, hbal]

/-- Witness for C9: a valid address Addr2 whose account lookup returns
absent and whose balance query returns 0 lamports. -/
theorem C9_absent_account_shape_witness :
    saGetAccountInfo (fun _ => .ok ()) (fun _ => .ok none) "Addr2"
      = .ok [("exists", .bool false), ("address", .str "Addr2")] ∧
    jsGetAccountInfo (fun _ => .ok ()) (fun _ => .ok none) "Addr2"
      = .ok [("exists", .bool false), ("address", .str "Addr2")] ∧
    routeAccountInfo (fun _ => .ok ()) (fun _ => .ok none) "Addr2"
      = .ok [("address", .str "Addr2"), ("exists", .bool false)] ∧
    mcpGetAccountInfo (fun _ => .ok ()) (fun _ => .ok none) (fun _ => .ok 0) "Addr2"
      = .ok [("action", .str "getAccountInfo"), ("address", .str "Addr2"),
             ("balance", .balanceObj "Addr2" 0), ("exists", .bool false),
             ("executable", .null), ("owner", .null), ("rentEpoch", .null),
             ("dataSize", .null)] :=
  C9_absent_account_shape (fun _ => .ok ()) (fun _ => .ok none) (fun _ => .ok 0)
    "Addr2" 0 rfl rfl rfl

end SolanaMcp
